import Mathlib

/-!
Shallow embedding of `src/Scheduler/Scheduler.h` (class `Scheduler`) and the
parts of its runtime environment (Boost.Asio `io_service` / `deadline_timer`)
that the specification's claims depend on.

Modelling conventions:
* C++ variadic callback arguments become a `List Val` of tagged values.
* A callable is a function from `(timer_id, args)` to a `CallResult`: the
  observable events it emits, its (possibly absent) return value, and the
  exception it throws, if any.
* Exceptions are explicit `Option String` effects; `try`/`catch` structure is
  translated by where those options are consumed.
* The fallible steps of `ScheduleTimer` (constructing the `deadline_timer`
  object, which in the source happens *before* the `try` block, and calling
  `async_wait`, which happens *inside* it) are driven by an explicit
  fault-injection record, so that the error-handling claims are decidable.
* Boost.Asio contracts that the source relies on (a completion handler runs at
  most once; a success completion never happens before the timer's expiry;
  `io_service::run` exits when a handler throws; `stop()` abandons handlers
  that have not started) are modelled as definitions/predicates marked as such.
-/

namespace SchedulerModel

/-- A callback argument value (C++ variadic arguments, tagged). -/
inductive Val where
  | natV : Nat → Val
  | intV : Int → Val
  | strV : String → Val
deriving DecidableEq, Repr

/-- An observable event of a run: a diagnostic line written to `std::cerr`, the
(ghost) record that some timer's expiration action started executing with the
given identifier and arguments, or an event produced by user code inside a
callback body. -/
inductive Event where
  | cerr : String → Event
  | callbackRun : Nat → List Val → Event
  | user : String → Event
deriving DecidableEq, Repr

/-- Result of invoking a callable: events emitted by its body, its return value
(`none` for `void`), and the exception escaping it, if any. -/
structure CallResult where
  events : List Event
  ret : Option Val
  thrown : Option String

/-- A callable as accepted by the generic `ScheduleTimer` overload: invoked
with the timer identifier followed by the trailing arguments. -/
structure Callback where
  body : Nat → List Val → CallResult

/-- A `boost::system::error_code` as delivered to the wait handler:
`val = 0` means the wait expired normally, anything else is a failure, and
`message` is the error detail (`e.message()`). -/
structure ErrorCode where
  val : Nat
  message : String
deriving DecidableEq, Repr

/-- The successful error code. -/
def ErrorCode.ok : ErrorCode := ⟨0, "Success"⟩

/-- Invocation of `callback(timer_id, callback_args...)` as performed inside
the wait handler: a ghost `callbackRun` event records the call together with
the exact identifier and argument list passed, followed by the body's own
events; the body's return value is discarded, and an exception thrown by the
body escapes the invocation. -/
def invokeCallback (cb : Callback) (timer_id : Nat) (args : List Val) :
    List Event × Option String :=
  (Event.callbackRun timer_id args :: (cb.body timer_id args).events,
   (cb.body timer_id args).thrown)

/-- The completion handler armed by `ScheduleTimer` (the lambda passed to
`timer->async_wait`, Scheduler.h lines 91–99): on an error code it writes the
diagnostic `"error waiting on timer (id = <id>): <message>"` and does not touch
the callback; on success it invokes the callback with the captured identifier
and arguments. The second component is the exception escaping the handler. -/
def waitHandler (timer_id : Nat) (cb : Callback) (args : List Val)
    (e : ErrorCode) : List Event × Option String :=
  if e.val ≠ 0 then
    ([Event.cerr ("error waiting on timer (id = " ++ toString timer_id ++ "): "
        ++ e.message)], none)
  else
    invokeCallback cb timer_id args

/-- A timed wait registered with the runtime: the data captured by value in the
completion handler, plus the relative expiry in milliseconds that was given to
the `deadline_timer` constructor. -/
structure ArmedWait where
  timer_id : Nat
  duration : Nat
  cb : Callback
  args : List Val

/-- Firing an armed wait delivers the given error code to its handler. -/
def ArmedWait.fire (w : ArmedWait) (e : ErrorCode) : List Event × Option String :=
  waitHandler w.timer_id w.cb w.args e

/-- Fault injection for one `ScheduleTimer` call: an exception thrown while
constructing the shared `deadline_timer` (the `std::make_shared` line, which in
the source sits *before* the `try` block), and an exception thrown by
`timer->async_wait` (inside the `try` block). -/
structure ArmingFaults where
  timerCtorThrows : Option String
  asyncWaitThrows : Option String
deriving DecidableEq, Repr

/-- No fault injected: both steps succeed. -/
def ArmingFaults.ok : ArmingFaults := ⟨none, none⟩

/-- Outcome of one `ScheduleTimer` call: diagnostics written during the call,
the wait handed to the runtime (if any), and the exception escaping the call
to the caller (if any). -/
structure SchedResult where
  events : List Event
  armed : Option ArmedWait
  escaped : Option String

/-- The generic overload `ScheduleTimer(timer_id, duration, callback,
callback_args...)` (Scheduler.h lines 83–103). Step 1 constructs the shared
`deadline_timer` with relative expiry `duration` milliseconds; this happens
before the `try`, so an exception there escapes the call. Step 2, inside
`try`, calls `async_wait` registering the completion handler; an exception
there is caught and logged as
`"error scheduling timer (id = <id>): <what>"`, and no wait is armed. -/
def ScheduleTimer (timer_id : Nat) (duration : Nat) (cb : Callback)
    (args : List Val) (f : ArmingFaults) : SchedResult :=
  match f.timerCtorThrows with
  | some msg => { events := [], armed := none, escaped := some msg }
  | none =>
    match f.asyncWaitThrows with
    | some msg =>
      { events := [Event.cerr ("error scheduling timer (id = "
          ++ toString timer_id ++ "): " ++ msg)],
        armed := none, escaped := none }
    | none =>
      { events := [], armed := some ⟨timer_id, duration, cb, args⟩,
        escaped := none }

/-- A member function of an instance type `σ`: invoked on an instance with the
timer identifier and the trailing arguments. -/
def MemberFn (σ : Type) : Type := σ → Nat → List Val → CallResult

/-- The adapter closure built by the bound-method overload (Scheduler.h lines
119–122): captures `member_function` and `instance` and, when invoked with
`(timer_id, lambda_args...)`, runs `(instance->*member_function)(timer_id,
lambda_args...)` as a statement, so the member function's return value is
discarded (the lambda returns `void`) while its events and exception pass
through. -/
def memberCallback {σ : Type} (member_function : MemberFn σ) (obj : σ) :
    Callback :=
  ⟨fun timer_id lambda_args =>
    { events := (member_function obj timer_id lambda_args).events,
      ret := none,
      thrown := (member_function obj timer_id lambda_args).thrown }⟩

/-- The bound-method overload `ScheduleTimer(timer_id, duration,
member_function, instance, member_function_args...)` (Scheduler.h lines
116–127): builds the adapter closure and delegates to the generic overload
with it and the forwarded arguments. -/
def ScheduleTimerMember {σ : Type} (timer_id : Nat) (duration : Nat)
    (member_function : MemberFn σ) (obj : σ) (args : List Val)
    (f : ArmingFaults) : SchedResult :=
  ScheduleTimer timer_id duration (memberCallback member_function obj) args f

/-- A completed handler invocation ready to be dispatched by the event loop:
the events it emits and the exception escaping it, if any. -/
structure Handler where
  run : List Event × Option String

/-- `io_service::run` dispatching a queue of ready handlers in order (Asio
contract: handlers execute one after another on the thread calling `run`, and
an exception thrown by a handler propagates out of `run`, leaving the
remaining handlers undispatched). Returns the events of the handlers that ran
and the exception escaping `run`, if any. -/
def ioServiceRun : List Handler → List Event × Option String
  | [] => ([], none)
  | h :: rest =>
    match h.run with
    | (evs, some exn) => (evs, some exn)
    | (evs, none) =>
      let r := ioServiceRun rest
      (evs ++ r.1, r.2)

/-- `Scheduler::Service` (Scheduler.h lines 139–146): calls `io_service_.run()`
once inside `try`; an exception escaping `run` is caught and logged as
`"exception in service thread: <what>"`, and then `Service` returns — there is
no loop re-entering `run`. The second component is the exception escaping
`Service` itself. -/
def Service (pending : List Handler) : List Event × Option String :=
  match ioServiceRun pending with
  | (evs, none) => (evs, none)
  | (evs, some msg) =>
    (evs ++ [Event.cerr ("exception in service thread: " ++ msg)], none)

/-- Per-Timer state of the specification's state machine. -/
inductive TimerState where
  | Pending
  | Fired
  | Failed
deriving DecidableEq, Repr

/-- The single completion a timed wait may receive (Asio contract: the handler
of one `async_wait` is invoked at most once): the absolute time, in
milliseconds, at which the handler runs, and the error code delivered. -/
structure TimedCompletion where
  time : Nat
  e : ErrorCode
deriving DecidableEq, Repr

/-- Asio contract for a wait armed at absolute time `t0` (the `deadline_timer`
was constructed with relative expiry `w.duration` milliseconds): a completion
that is a normal expiry never runs before `t0 + w.duration`. -/
def ValidCompletion (w : ArmedWait) (t0 : Nat) (c : TimedCompletion) : Prop :=
  c.e.val = 0 → t0 + w.duration ≤ c.time

/-- Final state of a timer from its (at most one) completion: no completion
means the timer is still (forever) pending; a completion with an error code is
the failure path, a normal expiry the firing path. -/
def timerFinalState : Option TimedCompletion → TimerState
  | none => TimerState.Pending
  | some c => if c.e.val ≠ 0 then TimerState.Failed else TimerState.Fired

/-- The events an armed wait contributes to the run, given its (at most one)
completion: nothing while pending, otherwise whatever its handler emits. -/
def timerEvents (w : ArmedWait) : Option TimedCompletion → List Event
  | none => []
  | some c => (w.fire c.e).1

/-- Whether an event records the start of an expiration-action invocation. -/
def isInvokeEvent : Event → Bool
  | Event.callbackRun _ _ => true
  | _ => false

/-- Number of expiration-action invocations recorded in an event list. -/
def invocationCount (evs : List Event) : Nat :=
  (evs.filter isInvokeEvent).length

/-- A callable whose body emits no ghost `callbackRun` events of its own, so
that `invocationCount` counts exactly the invocations performed by handlers. -/
def GhostFree (cb : Callback) : Prop :=
  ∀ timer_id args, invocationCount (cb.body timer_id args).events = 0

/-- One step of `~Scheduler` (Scheduler.h lines 62–71) followed by the
implicit member destructions: the destructor body calls `io_service_.stop()`
inside `try` and logs `"error stopping io_service_: <what>"` on failure; then
the members are destroyed in reverse declaration order (`io_service_thread_`,
whose `jthread` destructor joins the background thread, then
`io_service_work_`, then `io_service_`). -/
inductive DtorStep where
  | stopRuntime
  | logStopError : String → DtorStep
  | joinThread
  | destroyWork
  | destroyIoService
deriving DecidableEq, Repr

/-- The destruction sequence of a `Scheduler`, parameterised by the exception
thrown by `io_service_.stop()`, if any. -/
def schedulerDestructor (stopThrows : Option String) : List DtorStep :=
  DtorStep.stopRuntime ::
    (match stopThrows with
     | some msg => [DtorStep.logStopError ("error stopping io_service_: " ++ msg)]
     | none => []) ++
    [DtorStep.joinThread, DtorStep.destroyWork, DtorStep.destroyIoService]

/-- Asio contract for `io_service::stop`: once the service is stopped, `run`
returns as soon as possible and handlers that have not started are abandoned —
dispatching the pending queue on a stopped service produces no events and no
exception. -/
def runOnService (stopped : Bool) (pending : List Handler) :
    List Event × Option String :=
  if stopped then ([], none) else ioServiceRun pending

/-- A concrete callable used to instantiate the universally quantified
theorems below: records that its body ran and returns a value (which the
scheduler must discard). -/
def demoCallback : Callback :=
  ⟨fun _ _ =>
    { events := [Event.user "demo body ran"], ret := some (Val.natV 7),
      thrown := none }⟩

/-- A concrete member function on instance type `Nat`, returning a value
(which the adapter closure must discard). -/
def demoMember : MemberFn Nat :=
  fun obj _ _ =>
    { events := [Event.user ("member body on " ++ toString obj)],
      ret := some (Val.natV 1), thrown := none }

/-- A ready handler whose execution throws. -/
def throwingHandler : Handler := ⟨([], some "boom")⟩

/-- A ready handler that invokes timer 2's action normally. -/
def benignHandler : Handler := ⟨([Event.callbackRun 2 []], none)⟩

/-- Claim C1: for every timer scheduled via the generic
`ScheduleTimer(timer_id, duration, callback, callback_args...)` whose wait
completes without error, the callback is invoked with exactly the scheduled
identifier followed by the scheduled trailing arguments, unchanged and in
order, and the callback's return value is discarded (the outcome of firing is
unchanged under any modification of the callback's return values). -/
theorem scheduleTimer_success_invokes_callback_exactly
    (timer_id duration : Nat) (cb : Callback) (args : List Val)
    (w : ArmedWait) (e : ErrorCode)
    (harm : (ScheduleTimer timer_id duration cb args ArmingFaults.ok).armed
      = some w)
    (he : e.val = 0) :
    (w.fire e).1
      = Event.callbackRun timer_id args :: (cb.body timer_id args).events
    ∧ ∀ cb' : Callback,
        (∀ i a, (cb'.body i a).events = (cb.body i a).events
          ∧ (cb'.body i a).thrown = (cb.body i a).thrown) →
        ArmedWait.fire { w with cb := cb' } e = w.fire e := by
  have hw : w = ⟨timer_id, duration, cb, args⟩ := by
    have h : some (⟨timer_id, duration, cb, args⟩ : ArmedWait) = some w := harm
    exact (Option.some.inj h).symm
  subst hw
  constructor
  · simp [ArmedWait.fire, waitHandler, he, invokeCallback]
  · intro cb' hsame
    simp only [ArmedWait.fire, waitHandler, he, invokeCallback]
    simp [(hsame timer_id args).1, (hsame timer_id args).2]

/-- Closed instance of C1 at a concrete scheduled timer. -/
theorem scheduleTimer_success_invokes_callback_exactly_witness :
    ((ArmedWait.fire ⟨1, 2000, demoCallback, [Val.natV 42]⟩ ErrorCode.ok)).1
      = Event.callbackRun 1 [Val.natV 42]
          :: (demoCallback.body 1 [Val.natV 42]).events :=
  (scheduleTimer_success_invokes_callback_exactly 1 2000 demoCallback
    [Val.natV 42] ⟨1, 2000, demoCallback, [Val.natV 42]⟩ ErrorCode.ok
    rfl rfl).1

/-- Claim C2: for every scheduled timer whose wait completes with an error
indication, the expiration action is not invoked — the handler's outcome is a
single diagnostic line built from the timer identifier and the error detail,
contains no action invocation, and is independent of the callback. -/
theorem scheduleTimer_error_skips_callback
    (timer_id duration : Nat) (cb : Callback) (args : List Val)
    (w : ArmedWait) (e : ErrorCode)
    (harm : (ScheduleTimer timer_id duration cb args ArmingFaults.ok).armed
      = some w)
    (he : e.val ≠ 0) :
    w.fire e
      = ([Event.cerr ("error waiting on timer (id = " ++ toString timer_id
          ++ "): " ++ e.message)], none)
    ∧ invocationCount (w.fire e).1 = 0
    ∧ ∀ cb' : Callback, ArmedWait.fire { w with cb := cb' } e = w.fire e := by
  have hw : w = ⟨timer_id, duration, cb, args⟩ := by
    have h : some (⟨timer_id, duration, cb, args⟩ : ArmedWait) = some w := harm
    exact (Option.some.inj h).symm
  subst hw
  refine ⟨?_, ?_, ?_⟩
  · simp [ArmedWait.fire, waitHandler, he]
  · simp [ArmedWait.fire, waitHandler, he, invocationCount, isInvokeEvent]
  · intro cb'
    simp [ArmedWait.fire, waitHandler, he]

/-- Closed instance of C2 at a concrete scheduled timer and error code. -/
theorem scheduleTimer_error_skips_callback_witness :
    ArmedWait.fire ⟨9, 500, demoCallback, []⟩ ⟨995, "Operation canceled"⟩
      = ([Event.cerr "error waiting on timer (id = 9): Operation canceled"],
         none) :=
  (scheduleTimer_error_skips_callback 9 500 demoCallback []
    ⟨9, 500, demoCallback, []⟩ ⟨995, "Operation canceled"⟩ rfl
    (by decide)).1

/-- Claim C3: each Timer's expiration action is invoked at most once, and only
after the Timer's delay has elapsed (never on the failure path): from its at
most one completion the Timer is in exactly one of the states `Pending`,
`Fired` (action invoked exactly once) or `Failed` (action never invoked, the
failure logged), there being no `Cancelled` state, and an invocation can only
happen at a completion time no earlier than scheduling time plus the delay. -/
theorem timer_state_machine
    (w : ArmedWait) (c : Option TimedCompletion) (t0 : Nat)
    (hg : GhostFree w.cb)
    (hv : ∀ tc ∈ c, ValidCompletion w t0 tc) :
    invocationCount (timerEvents w c) ≤ 1
    ∧ (timerFinalState c = TimerState.Pending
        ∨ timerFinalState c = TimerState.Fired
        ∨ timerFinalState c = TimerState.Failed)
    ∧ (timerFinalState c = TimerState.Fired
        ↔ invocationCount (timerEvents w c) = 1)
    ∧ (timerFinalState c = TimerState.Failed
        → invocationCount (timerEvents w c) = 0
          ∧ ∃ msg, timerEvents w c = [Event.cerr msg])
    ∧ (timerFinalState c = TimerState.Pending → timerEvents w c = [])
    ∧ (∀ tc ∈ c, invocationCount (timerEvents w c) = 1
        → t0 + w.duration ≤ tc.time) := by
  match c with
  | none =>
    simp [timerFinalState, timerEvents, invocationCount]
  | some tc =>
    by_cases hfail : tc.e.val ≠ 0
    · refine ⟨?_, ?_, ?_, ?_, ?_, ?_⟩
      · simp [timerEvents, ArmedWait.fire, waitHandler, hfail,
          invocationCount, isInvokeEvent]
      · simp [timerFinalState, hfail]
      · constructor
        · intro h
          simp [timerFinalState, hfail] at h
        · intro h
          simp [timerEvents, ArmedWait.fire, waitHandler, hfail,
            invocationCount, isInvokeEvent] at h
      · intro _
        refine ⟨?_, ?_⟩
        · simp [timerEvents, ArmedWait.fire, waitHandler, hfail,
            invocationCount, isInvokeEvent]
        · exact ⟨"error waiting on timer (id = " ++ toString w.timer_id
              ++ "): " ++ tc.e.message,
            by simp [timerEvents, ArmedWait.fire, waitHandler, hfail]⟩
      · intro h
        simp [timerFinalState, hfail] at h
      · intro tc' htc' h
        exfalso
        simp [timerEvents, ArmedWait.fire, waitHandler, hfail,
          invocationCount, isInvokeEvent] at h
    · push_neg at hfail
      have hcount : invocationCount (timerEvents w (some tc)) = 1 := by
        simp [timerEvents, ArmedWait.fire, waitHandler, hfail,
          invokeCallback, invocationCount, isInvokeEvent]
        have := hg w.timer_id w.args
        simpa [invocationCount] using this
      refine ⟨le_of_eq hcount, ?_, ?_, ?_, ?_, ?_⟩
      · simp [timerFinalState, hfail]
      · simp [timerFinalState, hfail, hcount]
      · intro h
        simp [timerFinalState, hfail] at h
      · intro h
        simp [timerFinalState, hfail] at h
      · intro tc' htc' _
        have : tc' = tc := by simpa using htc'.symm
        subst this
        exact hv tc' (by simp) hfail

/-- Closed instance of C3: a concrete timer armed for 1000 ms at time 0,
completing normally at time 1000, fires exactly once. -/
theorem timer_state_machine_witness :
    timerFinalState (some ⟨1000, ErrorCode.ok⟩) = TimerState.Fired
    ∧ invocationCount
        (timerEvents ⟨1, 1000, demoCallback, []⟩ (some ⟨1000, ErrorCode.ok⟩))
        = 1 := by
  have h := timer_state_machine ⟨1, 1000, demoCallback, []⟩
    (some ⟨1000, ErrorCode.ok⟩) 0
    (fun _ _ => rfl)
    (by intro tc htc
        have : tc = ⟨1000, ErrorCode.ok⟩ := by simpa using htc.symm
        subst this; intro _; decide)
  exact ⟨by decide, (h.2.2.1).mp (by decide)⟩

/-- Claim C6: the bound-method overload `ScheduleTimer(timer_id, duration,
member_function, instance, args...)` equals the generic overload applied to
the adapter closure (there is no separate dispatch path), and at fire time the
armed wait invokes `member_function` on the given instance with `(timer_id,
args...)`, the member function's return value being discarded by the adapter. -/
theorem scheduleTimerMember_delegates {σ : Type}
    (timer_id duration : Nat) (member_function : MemberFn σ) (obj : σ)
    (args : List Val) (f : ArmingFaults) :
    ScheduleTimerMember timer_id duration member_function obj args f
      = ScheduleTimer timer_id duration (memberCallback member_function obj)
          args f
    ∧ ∀ w, (ScheduleTimerMember timer_id duration member_function obj args
          ArmingFaults.ok).armed = some w →
        ∀ e : ErrorCode, e.val = 0 →
          w.fire e
            = (Event.callbackRun timer_id args
                 :: (member_function obj timer_id args).events,
               (member_function obj timer_id args).thrown) := by
  refine ⟨rfl, ?_⟩
  intro w harm e he
  have hw : w = ⟨timer_id, duration, memberCallback member_function obj,
      args⟩ := by
    have h : some (⟨timer_id, duration,
        memberCallback member_function obj, args⟩ : ArmedWait) = some w :=
      harm
    exact (Option.some.inj h).symm
  subst hw
  simp [ArmedWait.fire, waitHandler, he, invokeCallback, memberCallback]

/-- Closed instance of C6 at a concrete member function and instance. -/
theorem scheduleTimerMember_delegates_witness :
    ScheduleTimerMember 3 750 demoMember 5 [Val.strV "x"] ArmingFaults.ok
      = ScheduleTimer 3 750 (memberCallback demoMember 5) [Val.strV "x"]
          ArmingFaults.ok
    ∧ ArmedWait.fire
        ⟨3, 750, memberCallback demoMember 5, [Val.strV "x"]⟩ ErrorCode.ok
      = (Event.callbackRun 3 [Val.strV "x"]
           :: (demoMember 5 3 [Val.strV "x"]).events,
         (demoMember 5 3 [Val.strV "x"]).thrown) :=
  ⟨(scheduleTimerMember_delegates 3 750 demoMember 5 [Val.strV "x"]
      ArmingFaults.ok).1,
   (scheduleTimerMember_delegates 3 750 demoMember 5 [Val.strV "x"]
      ArmingFaults.ok).2
     ⟨3, 750, memberCallback demoMember 5, [Val.strV "x"]⟩ rfl
     ErrorCode.ok rfl⟩

/-- Counterexample to claim C4 as stated: when constructing the shared
`deadline_timer` throws (the `std::make_shared` line sits before the `try`
block in `ScheduleTimer`), the exception escapes the call and nothing at all
is reported via the diagnostic sink. -/
theorem scheduleTimer_ctor_exception_escapes :
    (ScheduleTimer 1 2000 demoCallback [] ⟨some "std::bad_alloc", none⟩).escaped
      = some "std::bad_alloc"
    ∧ (ScheduleTimer 1 2000 demoCallback []
        ⟨some "std::bad_alloc", none⟩).events = [] :=
  ⟨rfl, rfl⟩

/-- Claim C4 (amended): for every call to either `ScheduleTimer` overload in
which constructing the timer object does not throw, no internal error escapes
the call; a wait-arming failure (an exception from `async_wait`) is reported
via the diagnostic sink with the timer identifier and resolved by dropping
that timer's action, with no retry (no wait is armed). An exception thrown
while constructing the timer object itself escapes the call. -/
theorem scheduleTimer_error_containment
    (timer_id duration : Nat) (cb : Callback) (args : List Val)
    (f : ArmingFaults)
    (hctor : f.timerCtorThrows = none) :
    (ScheduleTimer timer_id duration cb args f).escaped = none
    ∧ (∀ (σ : Type) (member_function : MemberFn σ) (obj : σ),
        (ScheduleTimerMember timer_id duration member_function obj args
          f).escaped = none)
    ∧ (∀ msg, f.asyncWaitThrows = some msg →
        ScheduleTimer timer_id duration cb args f
          = { events := [Event.cerr ("error scheduling timer (id = "
                ++ toString timer_id ++ "): " ++ msg)],
              armed := none, escaped := none }) := by
  obtain ⟨c, a⟩ := f
  cases hctor
  refine ⟨?_, ?_, ?_⟩
  · cases a <;> rfl
  · intro σ member_function obj
    cases a <;> rfl
  · intro msg hmsg
    cases a with
    | none => cases hmsg
    | some m =>
      have hm : m = msg := Option.some.inj hmsg
      subst hm
      rfl

/-- Closed instance of C4 (amended): an `async_wait` failure is logged and
contained, no wait is armed, nothing escapes. -/
theorem scheduleTimer_error_containment_witness :
    (ScheduleTimer 4 100 demoCallback [] ⟨none, some "resource"⟩).escaped
      = none
    ∧ ScheduleTimer 4 100 demoCallback [] ⟨none, some "resource"⟩
      = { events := [Event.cerr "error scheduling timer (id = 4): resource"],
          armed := none, escaped := none } :=
  ⟨(scheduleTimer_error_containment 4 100 demoCallback []
      ⟨none, some "resource"⟩ rfl).1,
   (scheduleTimer_error_containment 4 100 demoCallback []
      ⟨none, some "resource"⟩ rfl).2.2 "resource" rfl⟩

/-- Counterexample to claim C5 as stated: a handler exception is caught and
logged by `Service`, but the reactor does not keep servicing other pending
waits — `Service` calls `io_service_.run()` exactly once with no restart
loop, so the benign handler that would have invoked timer 2's action when
serviced alone is never dispatched after the throwing handler. -/
theorem service_exception_stops_servicing :
    Service [throwingHandler, benignHandler]
      = ([Event.cerr "exception in service thread: boom"], none)
    ∧ Service [benignHandler] = ([Event.callbackRun 2 []], none)
    ∧ Event.callbackRun 2 [] ∉ (Service [throwingHandler, benignHandler]).1 := by
  refine ⟨rfl, rfl, ?_⟩
  simp [Service, ioServiceRun, throwingHandler, benignHandler]

/-- Dispatching a queue whose head handler throws: `run` returns the head's
events and the exception; the tail is never dispatched. -/
theorem ioServiceRun_cons_throw (h : Handler) (rest : List Handler)
    (msg : String) (hthrow : h.run.2 = some msg) :
    ioServiceRun (h :: rest) = (h.run.1, some msg) := by
  rcases hr : h.run with ⟨evs, ex⟩
  rw [hr] at hthrow
  change ex = some msg at hthrow
  subst hthrow
  simp [ioServiceRun, hr]

/-- Dispatching a queue whose head handler completes normally: `run` emits the
head's events and continues with the tail. -/
theorem ioServiceRun_cons_ok (h : Handler) (rest : List Handler)
    (hok : h.run.2 = none) :
    ioServiceRun (h :: rest)
      = (h.run.1 ++ (ioServiceRun rest).1, (ioServiceRun rest).2) := by
  rcases hr : h.run with ⟨evs, ex⟩
  rw [hr] at hok
  change ex = none at hok
  subst hok
  simp [ioServiceRun, hr]

/-- Claim C5 (amended): an exception raised by a handler while running the
reactor loop is caught at the loop boundary (`Service` never lets it escape)
and reported via the diagnostic channel; however the reactor then terminates:
`Service` returns after logging, and handlers queued behind the failing one
are never serviced. -/
theorem service_catches_logs_and_terminates
    (pre : List Handler) (h : Handler) (rest : List Handler) (msg : String)
    (hpre : ∀ h' ∈ pre, h'.run.2 = none)
    (hthrow : h.run.2 = some msg) :
    (Service (pre ++ h :: rest)).2 = none
    ∧ (Service (pre ++ h :: rest)).1
      = (pre.map (fun h' => h'.run.1)).flatten ++ h.run.1
        ++ [Event.cerr ("exception in service thread: " ++ msg)] := by
  have hrun : ioServiceRun (pre ++ h :: rest)
      = ((pre.map (fun h' => h'.run.1)).flatten ++ h.run.1, some msg) := by
    induction pre with
    | nil =>
      simpa using ioServiceRun_cons_throw h rest msg hthrow
    | cons h0 tl ih =>
      have ihh := ih (fun h' hmem => hpre h' (by simp [hmem]))
      have h0ok : h0.run.2 = none := hpre h0 (by simp)
      simp only [List.cons_append]
      rw [ioServiceRun_cons_ok h0 (tl ++ h :: rest) h0ok, ihh]
      simp
  exact ⟨by simp [Service, hrun], by simp [Service, hrun]⟩

/-- Closed instance of C5 (amended): with no handlers before the throwing one
and one benign handler after it, `Service` logs the exception, lets nothing
escape, and the trailing handler's events are absent. -/
theorem service_catches_logs_and_terminates_witness :
    (Service ([] ++ throwingHandler :: [benignHandler])).2 = none
    ∧ (Service ([] ++ throwingHandler :: [benignHandler])).1
      = (([] : List Handler).map (fun h' => h'.run.1)).flatten
        ++ throwingHandler.run.1
        ++ [Event.cerr ("exception in service thread: " ++ "boom")] :=
  service_catches_logs_and_terminates [] throwingHandler [benignHandler]
    "boom" (by intro h' hmem; cases hmem) rfl

/-- Claim C7: destruction of a Scheduler first calls `stop()` on the runtime,
logs (and does not raise) if stopping fails, and joins the background thread
before the runtime members are destroyed; handlers still pending on the
stopped service are abandoned, not force-fired: dispatching them produces no
events (no action is invoked after destruction begins) and no exception. -/
theorem scheduler_destructor_behavior (stopThrows : Option String)
    (pending : List Handler) :
    (schedulerDestructor stopThrows).head? = some DtorStep.stopRuntime
    ∧ (∀ msg, stopThrows = some msg →
        DtorStep.logStopError ("error stopping io_service_: " ++ msg)
          ∈ schedulerDestructor stopThrows)
    ∧ (∃ mid, schedulerDestructor stopThrows
        = DtorStep.stopRuntime :: mid
          ++ [DtorStep.joinThread, DtorStep.destroyWork,
              DtorStep.destroyIoService])
    ∧ runOnService true pending = ([], none) := by
  refine ⟨?_, ?_, ?_, rfl⟩
  · cases stopThrows <;> rfl
  · intro msg hmsg
    subst hmsg
    simp [schedulerDestructor]
  · cases stopThrows with
    | none => exact ⟨[], rfl⟩
    | some m =>
      exact ⟨[DtorStep.logStopError ("error stopping io_service_: " ++ m)],
        rfl⟩

/-- Closed instance of C7: a failing `stop()` is logged, and the pending
benign handler is abandoned on the stopped service. -/
theorem scheduler_destructor_behavior_witness :
    DtorStep.logStopError ("error stopping io_service_: " ++ "shutdown failed")
      ∈ schedulerDestructor (some "shutdown failed")
    ∧ runOnService true [benignHandler] = ([], none) :=
  ⟨(scheduler_destructor_behavior (some "shutdown failed")
      [benignHandler]).2.1 "shutdown failed" rfl,
   (scheduler_destructor_behavior (some "shutdown failed")
      [benignHandler]).2.2.2⟩

/-- Claim C9: for a timer scheduled at absolute time `t0` with delay `d`
milliseconds whose wait completes normally, the armed wait carries exactly
the requested duration, so under the deadline-timer contract the completion
runs no earlier than `t0 + d`, and the firing invokes the action. -/
theorem timer_fires_after_delay
    (timer_id d t0 : Nat) (cb : Callback) (args : List Val)
    (w : ArmedWait) (c : TimedCompletion)
    (harm : (ScheduleTimer timer_id d cb args ArmingFaults.ok).armed = some w)
    (hv : ValidCompletion w t0 c)
    (hsucc : c.e.val = 0) :
    w.duration = d
    ∧ t0 + d ≤ c.time
    ∧ (w.fire c.e).1
      = Event.callbackRun timer_id args :: (cb.body timer_id args).events := by
  have hw : w = ⟨timer_id, d, cb, args⟩ := by
    have h : some (⟨timer_id, d, cb, args⟩ : ArmedWait) = some w := harm
    exact (Option.some.inj h).symm
  subst hw
  exact ⟨rfl, hv hsucc,
    by simp [ArmedWait.fire, waitHandler, hsucc, invokeCallback]⟩

/-- Closed instance of C9: a timer armed at time 100 with delay 2000 ms,
completing normally at time 2100, fires then and invokes the action. -/
theorem timer_fires_after_delay_witness :
    (100 : Nat) + 2000 ≤ 2100
    ∧ (ArmedWait.fire ⟨7, 2000, demoCallback, [Val.natV 1]⟩ ErrorCode.ok).1
      = Event.callbackRun 7 [Val.natV 1]
          :: (demoCallback.body 7 [Val.natV 1]).events :=
  ⟨(timer_fires_after_delay 7 2000 100 demoCallback [Val.natV 1]
      ⟨7, 2000, demoCallback, [Val.natV 1]⟩ ⟨2100, ErrorCode.ok⟩ rfl
      (by intro _; decide) rfl).2.1,
   (timer_fires_after_delay 7 2000 100 demoCallback [Val.natV 1]
      ⟨7, 2000, demoCallback, [Val.natV 1]⟩ ⟨2100, ErrorCode.ok⟩ rfl
      (by intro _; decide) rfl).2.2⟩

/-- Claim C10: a delay of 0 milliseconds is accepted at the public interface:
`ScheduleTimer(id, 0, callback, args...)` with no fault injected emits no
diagnostic, lets nothing escape, and arms a valid wait with duration 0 whose
normal completion still invokes the action with `(id, args)`. -/
theorem scheduleTimer_zero_delay_accepted
    (timer_id : Nat) (cb : Callback) (args : List Val) :
    (ScheduleTimer timer_id 0 cb args ArmingFaults.ok).escaped = none
    ∧ (ScheduleTimer timer_id 0 cb args ArmingFaults.ok).events = []
    ∧ (ScheduleTimer timer_id 0 cb args ArmingFaults.ok).armed
      = some ⟨timer_id, 0, cb, args⟩
    ∧ ∀ e : ErrorCode, e.val = 0 →
        (ArmedWait.fire ⟨timer_id, 0, cb, args⟩ e).1
          = Event.callbackRun timer_id args
              :: (cb.body timer_id args).events := by
  refine ⟨rfl, rfl, rfl, ?_⟩
  intro e he
  simp [ArmedWait.fire, waitHandler, he, invokeCallback]

/-- Closed instance of C10 at a concrete zero-delay timer. -/
theorem scheduleTimer_zero_delay_accepted_witness :
    (ScheduleTimer 11 0 demoCallback [Val.intV (-3)] ArmingFaults.ok).armed
      = some ⟨11, 0, demoCallback, [Val.intV (-3)]⟩
    ∧ (ArmedWait.fire ⟨11, 0, demoCallback, [Val.intV (-3)]⟩ ErrorCode.ok).1
      = Event.callbackRun 11 [Val.intV (-3)]
          :: (demoCallback.body 11 [Val.intV (-3)]).events :=
  ⟨(scheduleTimer_zero_delay_accepted 11 demoCallback [Val.intV (-3)]).2.2.1,
   (scheduleTimer_zero_delay_accepted 11 demoCallback
      [Val.intV (-3)]).2.2.2 ErrorCode.ok rfl⟩

end SchedulerModel
